import Mathlib

/-!
# Folder read endpoint of `pkg/api/folders.go`

Shallow embedding of `getFolderHelper`, `folderGuardianResponse` and
`GetFolderById`, followed by the properties proved about them.

Conventions of the embedding.

* Go `int64` identifiers are `Int`; no arithmetic is performed on them, only
  the comparison `> 0`.
* A Go `error` is `Option Error`, `none` being `nil`.
* `bus.Dispatch(&query)` either returns an error or fills `query.Result`; it is
  a function from the query to `Except Error Dashboard`.
* The collaborators that live outside `folders.go` (the bus handler, the
  guardian constructor and `getUserLogin`) are fields of `Env`.
* A nil pointer dereference is the result `none` of `GetFolderById`; it is
  shown to be unreachable.
* `fmt.Printf("%v", err)` on the denial path writes to standard output only and
  is not part of the returned `Response`; it is left out.
-/

namespace Grafana

/-! ## Data model -/

/-- Go `error` values: the two sentinels of package `models` that
`getFolderHelper` names, and any other error, identified by its text. -/
inductive Error where
  | ErrDashboardNotFound
  | ErrFolderNotFound
  | other (msg : String)
  deriving DecidableEq, Repr

/-- Go `time.Time`, kept as an uninterpreted instant. -/
structure Time where
  unixNano : Int
  deriving DecidableEq, Repr

/-- Org roles of `models.RoleType`. -/
inductive RoleType where
  | ROLE_VIEWER
  | ROLE_EDITOR
  | ROLE_ADMIN
  deriving DecidableEq, Repr

/-- The fields of `models.Dashboard` that the folder endpoint reads. -/
structure Dashboard where
  Id : Int
  Slug : String
  OrgId : Int
  Version : Int
  Created : Time
  Updated : Time
  UpdatedBy : Int
  CreatedBy : Int
  IsFolder : Bool
  HasAcl : Bool
  Title : String
  deriving DecidableEq, Repr

/-- The query `models.GetDashboardQuery` as built by `getFolderHelper`. -/
structure GetDashboardQuery where
  Slug : String
  Id : Int
  OrgId : Int
  deriving DecidableEq, Repr

/-- The payload `dtos.Folder`. -/
structure dtos.Folder where
  Id : Int
  Title : String
  Slug : String
  HasAcl : Bool
  CanSave : Bool
  CanEdit : Bool
  CanAdmin : Bool
  CreatedBy : String
  Created : Time
  UpdatedBy : String
  Updated : Time
  Version : Int
  deriving DecidableEq, Repr

/-- The requesting principal `models.SignedInUser`. -/
structure SignedInUser where
  UserId : Int
  OrgId : Int
  OrgRole : RoleType
  deriving DecidableEq, Repr

/-- The request context `middleware.Context`: the embedded signed-in user and
the route parameters as read by `ParamsInt64`. -/
structure Context where
  SignedInUser : SignedInUser
  ParamsInt64 : String → Int

/-- The promoted field `c.OrgId` of the embedded signed-in user. -/
def Context.OrgId (c : Context) : Int := c.SignedInUser.OrgId

/-- An HTTP-shaped outcome: an error response (status, message, underlying
cause) or a JSON response (status, folder payload). -/
inductive Response where
  | apiError (status : Int) (message : String) (err : Option Error)
  | json (status : Int) (body : dtos.Folder)
  deriving DecidableEq, Repr

/-- Modelled from the spec: `ApiError` is defined outside `folders.go`; the
spec describes its result as an outcome made of status, message and underlying
cause. -/
def ApiError (status : Int) (message : String) (err : Option Error) : Response :=
  Response.apiError status message err

/-- Modelled from the spec: `Json` is defined outside `folders.go`; its result
is the success outcome carrying the status and the payload. -/
def Json (status : Int) (body : dtos.Folder) : Response :=
  Response.json status body

/-- Status code of a response. -/
def Response.status : Response → Int
  | .apiError s _ _ => s
  | .json s _ => s

/-- Folder payload of a response, if it carries one. -/
def Response.payload : Response → Option dtos.Folder
  | .apiError _ _ _ => none
  | .json _ b => some b

/-- Message of an error response. -/
def Response.message : Response → Option String
  | .apiError _ m _ => some m
  | .json _ _ => none

/-- Underlying cause carried by a response (`nil` when there is none). -/
def Response.cause : Response → Option Error
  | .apiError _ _ e => e
  | .json _ _ => none

/-- The results of the four calls on a guardian instance, each a Go pair
`(bool, error)`. -/
structure Guardian where
  CanView : Bool × Option Error
  CanEdit : Bool × Option Error
  CanSave : Bool × Option Error
  CanAdmin : Bool × Option Error

/-- The collaborators of the endpoint that are defined outside `folders.go`. -/
structure Env where
  /-- The handler behind `bus.Dispatch(&query)` for `GetDashboardQuery`. -/
  Dispatch : GetDashboardQuery → Except Error Dashboard
  /-- The constructor `guardian.NewDashboardGuardian(dashId, orgId, user)`. -/
  NewDashboardGuardian : Int → Int → SignedInUser → Guardian
  /-- The display-name resolver `getUserLogin(userId)`. -/
  getUserLogin : Int → String

/-! ## The code of `folders.go` -/

/-- Embedding of `getFolderHelper` (folders.go, lines 13 to 28). -/
def getFolderHelper (env : Env) (orgId : Int) (slug : String) (id : Int) :
    Option Dashboard × Option Response :=
  let query : GetDashboardQuery := { Slug := slug, Id := id, OrgId := orgId }
  match env.Dispatch query with
  | .error err =>
    let err := if err = Error.ErrDashboardNotFound then Error.ErrFolderNotFound else err
    (none, some (ApiError 404 "Folder not found" (some err)))
  | .ok result =>
    if !result.IsFolder then
      (none, some (ApiError 404 "Folder not found" (some Error.ErrFolderNotFound)))
    else
      (some result, none)

/-- Embedding of `folderGuardianResponse` (folders.go, lines 30 to 36). -/
def folderGuardianResponse (err : Option Error) : Response :=
  if err ≠ none then
    ApiError 500 "Error while checking folder permissions" err
  else
    ApiError 403 "Access denied to this folder" none

/-- Embedding of `GetFolderById` (folders.go, lines 38 to 79). The result
`none` stands for the nil dereference of `folder.Id` that Go would raise if
`getFolderHelper` returned a nil folder together with a nil response. -/
def GetFolderById (env : Env) (c : Context) : Option Response :=
  match getFolderHelper env c.OrgId "" (c.ParamsInt64 ":id") with
  | (_, some rsp) => some rsp
  | (none, none) => none
  | (some folder, none) =>
    let guardian := env.NewDashboardGuardian folder.Id c.OrgId c.SignedInUser
    let (canView, err) := guardian.CanView
    if err ≠ none ∨ canView = false then
      some (folderGuardianResponse err)
    else
      let canEdit := guardian.CanEdit.1
      let canSave := guardian.CanSave.1
      let canAdmin := guardian.CanAdmin.1
      let updater := if folder.UpdatedBy > 0 then env.getUserLogin folder.UpdatedBy else "Anonymous"
      let creator := if folder.CreatedBy > 0 then env.getUserLogin folder.CreatedBy else "Anonymous"
      let dto : dtos.Folder :=
        { Id := folder.Id
          Title := folder.Title
          Slug := folder.Slug
          HasAcl := folder.HasAcl
          CanSave := canSave
          CanEdit := canEdit
          CanAdmin := canAdmin
          CreatedBy := creator
          Created := folder.Created
          UpdatedBy := updater
          Updated := folder.Updated
          Version := folder.Version }
      some (Json 200 dto)

/-- The query that `GetFolderById` hands to the store: empty slug, the `:id`
route parameter and the org of the context. -/
def folderQuery (c : Context) : GetDashboardQuery :=
  { Slug := "", Id := c.ParamsInt64 ":id", OrgId := c.OrgId }

/-- The store lookup of the request succeeded with `folder`, a record of folder
kind. -/
def Found (env : Env) (c : Context) (folder : Dashboard) : Prop :=
  env.Dispatch (folderQuery c) = .ok folder ∧ folder.IsFolder = true

/-- The guardian instance that `GetFolderById` builds for `folder`. -/
def guardianOf (env : Env) (c : Context) (folder : Dashboard) : Guardian :=
  env.NewDashboardGuardian folder.Id c.OrgId c.SignedInUser

/-! ## Capability resolver, from the specification

The guardian package is not part of `folders.go`. The endpoint theorems take
the guardian as a field of `Env`; the resolver below follows the decision rules
of the specification and is used to evaluate the scenarios of
`folders_test.go`. -/

/-- Permission levels of an access-control entry. -/
inductive PermissionType where
  | PERMISSION_VIEW
  | PERMISSION_EDIT
  | PERMISSION_ADMIN
  deriving DecidableEq, Repr

/-- Rank of a permission level: View below Edit below Admin. -/
def PermissionType.level : PermissionType → Nat
  | .PERMISSION_VIEW => 1
  | .PERMISSION_EDIT => 2
  | .PERMISSION_ADMIN => 3

/-- Whom an access-control entry grants to: one user, one team or one org
role. -/
inductive Grantee where
  | user (id : Int)
  | team (id : Int)
  | role (r : RoleType)
  deriving DecidableEq, Repr

/-- An access-control entry: a permission level granted to one grantee. -/
structure AccessControlEntry where
  grantee : Grantee
  permission : PermissionType
  deriving DecidableEq, Repr

/-- Whether an entry applies to the user: directly by user id, through one of
the teams of the user, or by org role. -/
def AccessControlEntry.appliesTo (e : AccessControlEntry) (user : SignedInUser)
    (teams : List Int) : Bool :=
  match e.grantee with
  | .user id => decide (id = user.UserId)
  | .team id => teams.contains id
  | .role r => decide (r = user.OrgRole)

/-- Modelled from the spec: the effective permission rank of a user on a
resource (0 for none). Without access control it is the org-role default
(Viewer: view, Editor: edit, Admin: admin) and no entry is consulted; with
access control it is the maximum level over the entries that apply to the
user, and 0 when none applies. -/
def effectiveLevel (hasAcl : Bool) (acl : List AccessControlEntry) (user : SignedInUser)
    (teams : List Int) : Nat :=
  if hasAcl then
    ((acl.filter (fun e => e.appliesTo user teams)).map (fun e => e.permission.level)).foldl max 0
  else
    match user.OrgRole with
    | .ROLE_VIEWER => 1
    | .ROLE_EDITOR => 2
    | .ROLE_ADMIN => 3

/-- Modelled from the spec: the guardian package is missing from the sources;
the four capabilities follow from the effective level (admin implies edit
implies view, save co-equal to edit) and the resolution itself never errors. -/
def specGuardian (hasAcl : Bool) (acl : List AccessControlEntry) (user : SignedInUser)
    (teams : List Int) : Guardian :=
  let lvl := effectiveLevel hasAcl acl user teams
  { CanView := (decide (1 ≤ lvl), none)
    CanEdit := (decide (2 ≤ lvl), none)
    CanSave := (decide (2 ≤ lvl), none)
    CanAdmin := (decide (3 ≤ lvl), none) }

/-! ## The scenarios of `folders_test.go` -/

/-- The folder of the tests: `NewDashboardFolder("Folder")` with `Id = 1` and
`IsFolder = true`; `HasAcl` is set by each scenario. The creation instant is
immaterial and fixed to 0. -/
def fakeFolder (hasAcl : Bool) : Dashboard :=
  { Id := 1
    Slug := "folder"
    OrgId := 0
    Version := 0
    Created := ⟨0⟩
    Updated := ⟨0⟩
    UpdatedBy := 0
    CreatedBy := 0
    IsFolder := true
    HasAcl := hasAcl
    Title := "Folder" }

/-- The test environment: the dashboard handler always answers `fakeFolder`,
the guardian resolves against the mocked entries with no team membership, and
no user is known to the display-name resolver. -/
def testEnv (hasAcl : Bool) (acl : List AccessControlEntry) : Env :=
  { Dispatch := fun _ => .ok (fakeFolder hasAcl)
    NewDashboardGuardian := fun _ _ user => specGuardian hasAcl acl user []
    getUserLogin := fun _ => "Anonymous" }

/-- The request `GET /api/folders/1` of a logged-in user (user 1 of org 1)
with the given org role. -/
def testContext (role : RoleType) : Context :=
  { SignedInUser := { UserId := 1, OrgId := 1, OrgRole := role }
    ParamsInt64 := fun name => if name = ":id" then 1 else 0 }

/-- The mocked entries of the scenario without access control: View for the
Viewer role and Edit for the Editor role. -/
def aclNoAcl : List AccessControlEntry :=
  [ { grantee := .role .ROLE_VIEWER, permission := .PERMISSION_VIEW },
    { grantee := .role .ROLE_EDITOR, permission := .PERMISSION_EDIT } ]

/-- The mocked entries of the scenario with access control: Edit for user 200
only. -/
def aclUser200 : List AccessControlEntry :=
  [ { grantee := .user 200, permission := .PERMISSION_EDIT } ]

/-! ## Concrete inputs used to instantiate the theorems -/

/-- An environment whose store gives the same answer to every query, whose
guardian constructor always yields `g` and whose display-name resolver is
`login`. -/
def stubEnv (store : Except Error Dashboard) (g : Guardian) (login : Int → String) : Env :=
  { Dispatch := fun _ => store
    NewDashboardGuardian := fun _ _ _ => g
    getUserLogin := login }

/-- A guardian whose four calls succeed with the given booleans. -/
def plainGuardian (v e s a : Bool) : Guardian :=
  { CanView := (v, none), CanEdit := (e, none), CanSave := (s, none), CanAdmin := (a, none) }

/-- A guardian whose view call returns `v` and whose three other calls return
the boolean `b` together with the error `err`. -/
def failingGuardian (v : Bool × Option Error) (b : Bool) (err : Error) : Guardian :=
  { CanView := v, CanEdit := (b, some err), CanSave := (b, some err), CanAdmin := (b, some err) }

/-- A stored record with the given kind flag, creator and updater. -/
def sampleRecord (isFolder : Bool) (createdBy updatedBy : Int) : Dashboard :=
  { Id := 7
    Slug := "ops"
    OrgId := 1
    Version := 3
    Created := ⟨100⟩
    Updated := ⟨250⟩
    UpdatedBy := updatedBy
    CreatedBy := createdBy
    IsFolder := isFolder
    HasAcl := true
    Title := "Ops" }

/-- A display-name resolver that knows user 5 as `carol` and calls every other
id `admin`. -/
def sampleLogin (id : Int) : String :=
  if id = 5 then "carol" else "admin"

/-- An error of the permission lookup other than the two sentinels. -/
def aclLookupFailed : Error := Error.other "acl lookup failed"

/-- An error of the store other than the two sentinels. -/
def storeUnavailable : Error := Error.other "database is locked"

/-! ## Auxiliary lemmas -/

theorem getFolderHelper_of_ok (env : Env) (orgId : Int) (slug : String) (id : Int)
    (d : Dashboard)
    (h : env.Dispatch { Slug := slug, Id := id, OrgId := orgId } = .ok d) :
    getFolderHelper env orgId slug id =
      if d.IsFolder = true then (some d, none)
      else (none, some (ApiError 404 "Folder not found" (some Error.ErrFolderNotFound))) := by
  unfold getFolderHelper
  simp only [h]
  cases d.IsFolder <;> simp

theorem getFolderHelper_of_error (env : Env) (orgId : Int) (slug : String) (id : Int)
    (e : Error)
    (h : env.Dispatch { Slug := slug, Id := id, OrgId := orgId } = .error e) :
    getFolderHelper env orgId slug id =
      (none, some (ApiError 404 "Folder not found"
        (some (if e = Error.ErrDashboardNotFound then Error.ErrFolderNotFound else e)))) := by
  unfold getFolderHelper
  simp only [h]

theorem getFolderHelper_found (env : Env) (c : Context) (folder : Dashboard)
    (h : Found env c folder) :
    getFolderHelper env c.OrgId "" (c.ParamsInt64 ":id") = (some folder, none) := by
  have h1 := getFolderHelper_of_ok env c.OrgId "" (c.ParamsInt64 ":id") folder h.1
  rw [h1, if_pos h.2]

theorem GetFolderById_found_denied (env : Env) (c : Context) (folder : Dashboard)
    (h : Found env c folder)
    (hv : (guardianOf env c folder).CanView.2 ≠ none ∨ (guardianOf env c folder).CanView.1 = false) :
    GetFolderById env c = some (folderGuardianResponse (guardianOf env c folder).CanView.2) := by
  unfold GetFolderById
  rw [getFolderHelper_found env c folder h]
  simp only [guardianOf] at hv
  simp only [if_pos hv]
  rfl

theorem GetFolderById_found_granted (env : Env) (c : Context) (folder : Dashboard)
    (h : Found env c folder) (hv : (guardianOf env c folder).CanView = (true, none)) :
    GetFolderById env c = some (Json 200
      { Id := folder.Id
        Title := folder.Title
        Slug := folder.Slug
        HasAcl := folder.HasAcl
        CanSave := (guardianOf env c folder).CanSave.1
        CanEdit := (guardianOf env c folder).CanEdit.1
        CanAdmin := (guardianOf env c folder).CanAdmin.1
        CreatedBy := if folder.CreatedBy > 0 then env.getUserLogin folder.CreatedBy else "Anonymous"
        Created := folder.Created
        UpdatedBy := if folder.UpdatedBy > 0 then env.getUserLogin folder.UpdatedBy else "Anonymous"
        Updated := folder.Updated
        Version := folder.Version }) := by
  unfold GetFolderById
  rw [getFolderHelper_found env c folder h]
  simp only [guardianOf] at hv
  simp [hv, guardianOf]

theorem GetFolderById_not_found (env : Env) (c : Context)
    (h : ∀ d, env.Dispatch (folderQuery c) = .ok d → d.IsFolder = false) :
    ∃ rsp, (getFolderHelper env c.OrgId "" (c.ParamsInt64 ":id")) = (none, some rsp) ∧
      GetFolderById env c = some rsp ∧ rsp.status = 404 ∧
      rsp.message = some "Folder not found" ∧ rsp.payload = none := by
  cases hd : env.Dispatch (folderQuery c) with
  | error e =>
    have h1 := getFolderHelper_of_error env c.OrgId "" (c.ParamsInt64 ":id") e hd
    refine ⟨_, h1, ?_, rfl, rfl, rfl⟩
    unfold GetFolderById
    rw [h1]
  | ok d =>
    have h1 := getFolderHelper_of_ok env c.OrgId "" (c.ParamsInt64 ":id") d hd
    have h2 : ¬ d.IsFolder = true := by simp [h d hd]
    rw [if_neg h2] at h1
    refine ⟨_, h1, ?_, rfl, rfl, rfl⟩
    unfold GetFolderById
    rw [h1]

theorem Found.unique {env : Env} {c : Context} {d folder : Dashboard}
    (hd : env.Dispatch (folderQuery c) = .ok d) (h : Found env c folder) : folder = d := by
  have h1 := h.1
  rw [hd] at h1
  injection h1 with h2
  exact h2.symm

theorem folderGuardianResponse_some (err : Error) :
    folderGuardianResponse (some err) =
      ApiError 500 "Error while checking folder permissions" (some err) := by
  simp [folderGuardianResponse]

theorem folderGuardianResponse_none :
    folderGuardianResponse none = ApiError 403 "Access denied to this folder" none := by
  simp [folderGuardianResponse]

/-! ## The claims -/

/-- C1 (fail closed). For every store, guardian, login resolver and request,
`GetFolderById` returns a response, and its status is 200 if and only if the
store lookup succeeded with a record of folder kind and `CanView` returned
`(true, nil)`; in every other case the status is 404, 500 or 403 and the
response carries no folder payload. -/
theorem C1_getFolderById_fail_closed (env : Env) (c : Context) :
    ∃ rsp, GetFolderById env c = some rsp ∧
      (rsp.status = 200 ↔
        ∃ folder, Found env c folder ∧ (guardianOf env c folder).CanView = (true, none)) ∧
      ((¬ ∃ folder, Found env c folder ∧ (guardianOf env c folder).CanView = (true, none)) →
        (rsp.status = 404 ∨ rsp.status = 500 ∨ rsp.status = 403) ∧ rsp.payload = none) := by
  by_cases hf : ∃ folder, Found env c folder
  · obtain ⟨folder, hfound⟩ := hf
    have huniq : ∀ f, Found env c f → f = folder := fun f hf2 => Found.unique hfound.1 hf2
    rcases hcv : (guardianOf env c folder).CanView with ⟨b, e⟩
    cases e with
    | some err =>
      have hden := GetFolderById_found_denied env c folder hfound (Or.inl (by simp [hcv]))
      rw [hcv] at hden
      simp only [folderGuardianResponse_some] at hden
      refine ⟨_, hden, ?_, ?_⟩
      · constructor
        · intro h; simp [ApiError, Response.status] at h
        · rintro ⟨f, hf2, hv⟩
          rw [huniq f hf2, hcv] at hv
          simp at hv
      · intro _
        simp [ApiError, Response.status, Response.payload]
    | none =>
      cases b with
      | false =>
        have hden := GetFolderById_found_denied env c folder hfound (Or.inr (by simp [hcv]))
        rw [hcv] at hden
        simp only [folderGuardianResponse_none] at hden
        refine ⟨_, hden, ?_, ?_⟩
        · constructor
          · intro h; simp [ApiError, Response.status] at h
          · rintro ⟨f, hf2, hv⟩
            rw [huniq f hf2, hcv] at hv
            simp at hv
        · intro _
          simp [ApiError, Response.status, Response.payload]
      | true =>
        have hok := GetFolderById_found_granted env c folder hfound hcv
        refine ⟨_, hok, ?_, ?_⟩
        · constructor
          · intro _; exact ⟨folder, hfound, hcv⟩
          · intro _; simp [Json, Response.status]
        · intro hneg
          exact absurd ⟨folder, hfound, hcv⟩ hneg
  · have hnf : ∀ d, env.Dispatch (folderQuery c) = .ok d → d.IsFolder = false := by
      intro d hd
      cases hdf : d.IsFolder with
      | false => rfl
      | true => exact absurd ⟨d, hd, hdf⟩ hf
    obtain ⟨rsp, _, hget, hst, _, hpay⟩ := GetFolderById_not_found env c hnf
    refine ⟨rsp, hget, ?_, ?_⟩
    · constructor
      · intro h; rw [hst] at h; norm_num at h
      · rintro ⟨f, hf2, _⟩; exact absurd ⟨f, hf2⟩ hf
    · intro _
      exact ⟨Or.inl hst, hpay⟩

/-- C2 (not-found uniformity). For every orgId, slug and id, `getFolderHelper`
returns the same outcome (nil folder, status 404, message "Folder not found",
cause `ErrFolderNotFound`) when the store dispatch fails with
`ErrDashboardNotFound` and when the store succeeds with a record that is not a
folder; in neither case is `ErrDashboardNotFound` the cause of the response. -/
theorem C2_getFolderHelper_not_found_uniform (envMiss envKind : Env) (orgId : Int)
    (slug : String) (id : Int) (d : Dashboard)
    (hmiss : envMiss.Dispatch { Slug := slug, Id := id, OrgId := orgId } =
      .error Error.ErrDashboardNotFound)
    (hkind : envKind.Dispatch { Slug := slug, Id := id, OrgId := orgId } = .ok d)
    (hd : d.IsFolder = false) :
    getFolderHelper envMiss orgId slug id = getFolderHelper envKind orgId slug id ∧
    getFolderHelper envMiss orgId slug id =
      (none, some (ApiError 404 "Folder not found" (some Error.ErrFolderNotFound))) ∧
    (∀ rsp, (getFolderHelper envMiss orgId slug id).2 = some rsp →
      rsp.status = 404 ∧ rsp.message = some "Folder not found" ∧
      rsp.cause = some Error.ErrFolderNotFound ∧
      rsp.cause ≠ some Error.ErrDashboardNotFound) ∧
    (∀ rsp, (getFolderHelper envKind orgId slug id).2 = some rsp →
      rsp.status = 404 ∧ rsp.message = some "Folder not found" ∧
      rsp.cause = some Error.ErrFolderNotFound ∧
      rsp.cause ≠ some Error.ErrDashboardNotFound) := by
  have h1 := getFolderHelper_of_error envMiss orgId slug id _ hmiss
  have h2 := getFolderHelper_of_ok envKind orgId slug id d hkind
  simp only [if_true] at h1
  have hnot : ¬ d.IsFolder = true := by simp [hd]
  rw [if_neg hnot] at h2
  rw [h1, h2]
  refine ⟨rfl, rfl, ?_, ?_⟩ <;>
  · intro rsp hrsp
    simp only [Option.some.injEq] at hrsp
    subst hrsp
    simp [ApiError, Response.status, Response.message, Response.cause]

/-- Instance of C2: a store that misses every id against a store that answers
with a record of dashboard kind. -/
theorem C2_getFolderHelper_not_found_uniform_witness :
    getFolderHelper (stubEnv (.error Error.ErrDashboardNotFound) (plainGuardian true true true true)
        sampleLogin) 1 "" 7 =
      getFolderHelper (stubEnv (.ok (sampleRecord false 5 0)) (plainGuardian true true true true)
        sampleLogin) 1 "" 7 ∧
    getFolderHelper (stubEnv (.error Error.ErrDashboardNotFound) (plainGuardian true true true true)
        sampleLogin) 1 "" 7 =
      (none, some (ApiError 404 "Folder not found" (some Error.ErrFolderNotFound))) :=
  have h := C2_getFolderHelper_not_found_uniform
    (stubEnv (.error Error.ErrDashboardNotFound) (plainGuardian true true true true) sampleLogin)
    (stubEnv (.ok (sampleRecord false 5 0)) (plainGuardian true true true true) sampleLogin)
    1 "" 7 (sampleRecord false 5 0) rfl rfl rfl
  ⟨h.1, h.2.1⟩

/-- C3 (view-gate mapping). For every found folder: if `CanView` returns a
non-nil error, whatever boolean accompanies it, `GetFolderById` returns status
500 with message "Error while checking folder permissions" and exactly that
error as cause; if `CanView` returns `(false, nil)` it returns status 403 with
message "Access denied to this folder" and a nil cause. -/
theorem C3_getFolderById_view_gate_mapping (env : Env) (c : Context) (folder : Dashboard)
    (h : Found env c folder) :
    (∀ b err, (guardianOf env c folder).CanView = (b, some err) →
      GetFolderById env c =
        some (ApiError 500 "Error while checking folder permissions" (some err))) ∧
    ((guardianOf env c folder).CanView = (false, none) →
      GetFolderById env c = some (ApiError 403 "Access denied to this folder" none)) := by
  constructor
  · intro b err hcv
    have hden := GetFolderById_found_denied env c folder h (Or.inl (by simp [hcv]))
    rw [hden, hcv, folderGuardianResponse_some]
  · intro hcv
    have hden := GetFolderById_found_denied env c folder h (Or.inr (by simp [hcv]))
    rw [hden, hcv, folderGuardianResponse_none]

/-- Instances of C3: the test folder with access control whose only entry
grants Edit to user 200 is refused with 403 to a Viewer and to an Editor; a
guardian that errors while claiming `true` yields 500 with that error. -/
theorem C3_getFolderById_view_gate_mapping_witness :
    GetFolderById (testEnv true aclUser200) (testContext .ROLE_VIEWER) =
      some (ApiError 403 "Access denied to this folder" none) ∧
    GetFolderById (testEnv true aclUser200) (testContext .ROLE_EDITOR) =
      some (ApiError 403 "Access denied to this folder" none) ∧
    GetFolderById
        (stubEnv (.ok (sampleRecord true 5 0))
          (failingGuardian (true, some aclLookupFailed) true aclLookupFailed) sampleLogin)
        (testContext .ROLE_ADMIN) =
      some (ApiError 500 "Error while checking folder permissions" (some aclLookupFailed)) :=
  ⟨(C3_getFolderById_view_gate_mapping (testEnv true aclUser200) (testContext .ROLE_VIEWER)
      (fakeFolder true) ⟨rfl, rfl⟩).2 rfl,
   (C3_getFolderById_view_gate_mapping (testEnv true aclUser200) (testContext .ROLE_EDITOR)
      (fakeFolder true) ⟨rfl, rfl⟩).2 rfl,
   (C3_getFolderById_view_gate_mapping
      (stubEnv (.ok (sampleRecord true 5 0))
        (failingGuardian (true, some aclLookupFailed) true aclLookupFailed) sampleLogin)
      (testContext .ROLE_ADMIN) (sampleRecord true 5 0) ⟨rfl, rfl⟩).1 true aclLookupFailed rfl⟩

/-- C4, as stated, fails: with a found folder, `CanView = (true, nil)` and
`CanEdit`, `CanSave`, `CanAdmin` each returning `true` together with a non-nil
error, the request succeeds with status 200 but the three payload fields are
`true`, not `false`. -/
theorem C4_capability_error_not_forced_false :
    Found (stubEnv (.ok (sampleRecord true 5 0))
        (failingGuardian (true, none) true aclLookupFailed) sampleLogin)
      (testContext .ROLE_VIEWER) (sampleRecord true 5 0) ∧
    (failingGuardian (true, none) true aclLookupFailed).CanView = (true, none) ∧
    (failingGuardian (true, none) true aclLookupFailed).CanEdit = (true, some aclLookupFailed) ∧
    (failingGuardian (true, none) true aclLookupFailed).CanSave = (true, some aclLookupFailed) ∧
    (failingGuardian (true, none) true aclLookupFailed).CanAdmin = (true, some aclLookupFailed) ∧
    ∃ dto, GetFolderById
        (stubEnv (.ok (sampleRecord true 5 0))
          (failingGuardian (true, none) true aclLookupFailed) sampleLogin)
        (testContext .ROLE_VIEWER) = some (Json 200 dto) ∧
      dto.CanEdit = true ∧ dto.CanSave = true ∧ dto.CanAdmin = true ∧
      dto.CanEdit ≠ false ∧ dto.CanSave ≠ false ∧ dto.CanAdmin ≠ false :=
  ⟨⟨rfl, rfl⟩, rfl, rfl, rfl, rfl, _, rfl, rfl, rfl, rfl, by decide, by decide, by decide⟩

/-- C4, amended. For every found folder with `CanView = (true, nil)`, if
`CanEdit` (respectively `CanSave`, `CanAdmin`) returns a non-nil error,
`GetFolderById` still returns status 200 and the `CanEdit` (respectively
`CanSave`, `CanAdmin`) field of the payload is the boolean that accompanied the
error: the error is discarded and the boolean passed through, so the field is
false whenever the resolver returns false with its error. -/
theorem C4_capability_error_passes_boolean (env : Env) (c : Context) (folder : Dashboard)
    (h : Found env c folder) (hv : (guardianOf env c folder).CanView = (true, none)) :
    ∃ dto, GetFolderById env c = some (Json 200 dto) ∧
      (∀ b err, (guardianOf env c folder).CanEdit = (b, some err) → dto.CanEdit = b) ∧
      (∀ b err, (guardianOf env c folder).CanSave = (b, some err) → dto.CanSave = b) ∧
      (∀ b err, (guardianOf env c folder).CanAdmin = (b, some err) → dto.CanAdmin = b) ∧
      (∀ err, (guardianOf env c folder).CanEdit = (false, some err) → dto.CanEdit = false) ∧
      (∀ err, (guardianOf env c folder).CanSave = (false, some err) → dto.CanSave = false) ∧
      (∀ err, (guardianOf env c folder).CanAdmin = (false, some err) → dto.CanAdmin = false) := by
  refine ⟨_, GetFolderById_found_granted env c folder h hv, ?_, ?_, ?_, ?_, ?_, ?_⟩
  · intro b err hb; simp [hb]
  · intro b err hb; simp [hb]
  · intro b err hb; simp [hb]
  · intro err hb; simp [hb]
  · intro err hb; simp [hb]
  · intro err hb; simp [hb]

/-- Instance of amended C4: a guardian that grants view and returns `false`
with an error for the three other capabilities yields status 200 with the
three capability fields false. -/
theorem C4_capability_error_passes_boolean_witness :
    ∃ dto, GetFolderById
        (stubEnv (.ok (sampleRecord true 5 0))
          (failingGuardian (true, none) false aclLookupFailed) sampleLogin)
        (testContext .ROLE_VIEWER) = some (Json 200 dto) ∧
      dto.CanEdit = false ∧ dto.CanSave = false ∧ dto.CanAdmin = false := by
  obtain ⟨dto, hget, _, _, _, he, hs, ha⟩ := C4_capability_error_passes_boolean
    (stubEnv (.ok (sampleRecord true 5 0))
      (failingGuardian (true, none) false aclLookupFailed) sampleLogin)
    (testContext .ROLE_VIEWER) (sampleRecord true 5 0) ⟨rfl, rfl⟩ rfl
  exact ⟨dto, hget, he aclLookupFailed rfl, hs aclLookupFailed rfl, ha aclLookupFailed rfl⟩

/-- C5, as stated, fails: when the store dispatch fails with an error other
than `ErrDashboardNotFound`, the response of `getFolderHelper` has status 404
and message "Folder not found" but its cause is that dispatch error, not
`ErrFolderNotFound`. -/
theorem C5_other_dispatch_error_keeps_cause :
    getFolderHelper
        (stubEnv (.error storeUnavailable) (plainGuardian true true true true) sampleLogin)
        1 "" 7 =
      (none, some (ApiError 404 "Folder not found" (some storeUnavailable))) ∧
    (ApiError 404 "Folder not found" (some storeUnavailable)).cause ≠
      some Error.ErrFolderNotFound :=
  ⟨rfl, by decide⟩

/-- C5, amended. Whenever the store dispatch fails with an error `e`,
`getFolderHelper` returns a nil folder and a response with status 404 and
message "Folder not found"; its cause is `ErrFolderNotFound` when `e` is
`ErrDashboardNotFound` and is `e` itself otherwise; `GetFolderById` returns that
response unchanged. -/
theorem C5_retrieval_failure_response (env : Env) (c : Context) (e : Error)
    (h : env.Dispatch (folderQuery c) = .error e) :
    ∃ rsp, getFolderHelper env c.OrgId "" (c.ParamsInt64 ":id") = (none, some rsp) ∧
      rsp.status = 404 ∧ rsp.message = some "Folder not found" ∧
      (e = Error.ErrDashboardNotFound → rsp.cause = some Error.ErrFolderNotFound) ∧
      (e ≠ Error.ErrDashboardNotFound → rsp.cause = some e) ∧
      GetFolderById env c = some rsp := by
  have h1 := getFolderHelper_of_error env c.OrgId "" (c.ParamsInt64 ":id") e h
  refine ⟨_, h1, rfl, rfl, ?_, ?_, ?_⟩
  · intro he; simp [ApiError, Response.cause, he]
  · intro he; simp [ApiError, Response.cause, he]
  · unfold GetFolderById
    rw [h1]

/-- Instances of amended C5: a missing dashboard is reported with cause
`ErrFolderNotFound`, an unavailable store with its own error as cause. -/
theorem C5_retrieval_failure_response_witness :
    (∃ rsp, GetFolderById
        (stubEnv (.error Error.ErrDashboardNotFound) (plainGuardian true true true true)
          sampleLogin) (testContext .ROLE_ADMIN) = some rsp ∧
      rsp.status = 404 ∧ rsp.cause = some Error.ErrFolderNotFound) ∧
    (∃ rsp, GetFolderById
        (stubEnv (.error storeUnavailable) (plainGuardian true true true true)
          sampleLogin) (testContext .ROLE_ADMIN) = some rsp ∧
      rsp.status = 404 ∧ rsp.cause = some storeUnavailable) := by
  constructor
  · obtain ⟨rsp, _, hs, _, hc, _, hg⟩ := C5_retrieval_failure_response
      (stubEnv (.error Error.ErrDashboardNotFound) (plainGuardian true true true true) sampleLogin)
      (testContext .ROLE_ADMIN) Error.ErrDashboardNotFound rfl
    exact ⟨rsp, hg, hs, hc rfl⟩
  · obtain ⟨rsp, _, hs, _, _, hc, hg⟩ := C5_retrieval_failure_response
      (stubEnv (.error storeUnavailable) (plainGuardian true true true true) sampleLogin)
      (testContext .ROLE_ADMIN) storeUnavailable rfl
    exact ⟨rsp, hg, hs, hc (by decide)⟩

/-- C6 (capability pass-through on success). For every found folder with
`CanView = (true, nil)` and `CanEdit`, `CanSave`, `CanAdmin` returning
`(e, nil)`, `(s, nil)`, `(a, nil)`, `GetFolderById` returns status 200 with
payload fields `CanEdit = e`, `CanSave = s`, `CanAdmin = a`. -/
theorem C6_getFolderById_capability_pass_through (env : Env) (c : Context)
    (folder : Dashboard) (e s a : Bool)
    (h : Found env c folder) (hv : (guardianOf env c folder).CanView = (true, none))
    (he : (guardianOf env c folder).CanEdit = (e, none))
    (hs : (guardianOf env c folder).CanSave = (s, none))
    (ha : (guardianOf env c folder).CanAdmin = (a, none)) :
    ∃ rsp dto, GetFolderById env c = some rsp ∧ rsp.status = 200 ∧ rsp.payload = some dto ∧
      dto.CanEdit = e ∧ dto.CanSave = s ∧ dto.CanAdmin = a := by
  refine ⟨_, _, GetFolderById_found_granted env c folder h hv, rfl, rfl, ?_, ?_, ?_⟩
  · simp [he]
  · simp [hs]
  · simp [ha]

/-- Instances of C6, the scenarios of the test folder without access control:
a Viewer gets false, false, false and an Editor gets true, true, false. -/
theorem C6_getFolderById_capability_pass_through_witness :
    (∃ rsp dto, GetFolderById (testEnv false aclNoAcl) (testContext .ROLE_VIEWER) = some rsp ∧
      rsp.status = 200 ∧ rsp.payload = some dto ∧
      dto.CanEdit = false ∧ dto.CanSave = false ∧ dto.CanAdmin = false) ∧
    (∃ rsp dto, GetFolderById (testEnv false aclNoAcl) (testContext .ROLE_EDITOR) = some rsp ∧
      rsp.status = 200 ∧ rsp.payload = some dto ∧
      dto.CanEdit = true ∧ dto.CanSave = true ∧ dto.CanAdmin = false) :=
  ⟨C6_getFolderById_capability_pass_through (testEnv false aclNoAcl) (testContext .ROLE_VIEWER)
      (fakeFolder false) false false false ⟨rfl, rfl⟩ rfl rfl rfl rfl,
   C6_getFolderById_capability_pass_through (testEnv false aclNoAcl) (testContext .ROLE_EDITOR)
      (fakeFolder false) true true false ⟨rfl, rfl⟩ rfl rfl rfl rfl⟩

/-- C7, as stated, fails: for a found, viewable folder whose `CreatedBy` and
`UpdatedBy` are the nonzero id -1, the payload labels are "Anonymous" although
`getUserLogin(-1)` is "admin". -/
theorem C7_negative_id_gets_fallback_label :
    (sampleRecord true (-1) (-1)).CreatedBy ≠ 0 ∧ (sampleRecord true (-1) (-1)).UpdatedBy ≠ 0 ∧
    sampleLogin (sampleRecord true (-1) (-1)).CreatedBy = "admin" ∧
    sampleLogin (sampleRecord true (-1) (-1)).UpdatedBy = "admin" ∧
    ∃ dto, GetFolderById
        (stubEnv (.ok (sampleRecord true (-1) (-1))) (plainGuardian true true true true)
          sampleLogin)
        (testContext .ROLE_ADMIN) = some (Json 200 dto) ∧
      dto.CreatedBy = "Anonymous" ∧ dto.UpdatedBy = "Anonymous" ∧
      dto.CreatedBy ≠ sampleLogin (sampleRecord true (-1) (-1)).CreatedBy ∧
      dto.UpdatedBy ≠ sampleLogin (sampleRecord true (-1) (-1)).UpdatedBy :=
  ⟨by decide, by decide, by decide, by decide, _, rfl, rfl, rfl, by decide, by decide⟩

/-- C7, amended. For every successful view, the payload label `CreatedBy`
(respectively `UpdatedBy`) equals `getUserLogin(folder.CreatedBy)`
(respectively `getUserLogin(folder.UpdatedBy)`) when the respective id is
positive, and equals the fixed label "Anonymous" when the id is zero or
negative. The two labels are computed independently: another successful view
with the same login resolver and the same creator id (respectively updater id)
carries the same creator label (respectively updater label), whatever the
other id is. -/
theorem C7_creator_updater_labels (env : Env) (c : Context) (folder : Dashboard)
    (h : Found env c folder) (hv : (guardianOf env c folder).CanView = (true, none)) :
    ∃ dto, GetFolderById env c = some (Json 200 dto) ∧
      (0 < folder.CreatedBy → dto.CreatedBy = env.getUserLogin folder.CreatedBy) ∧
      (folder.CreatedBy ≤ 0 → dto.CreatedBy = "Anonymous") ∧
      (0 < folder.UpdatedBy → dto.UpdatedBy = env.getUserLogin folder.UpdatedBy) ∧
      (folder.UpdatedBy ≤ 0 → dto.UpdatedBy = "Anonymous") ∧
      (∀ (env2 : Env) (c2 : Context) (folder2 : Dashboard), Found env2 c2 folder2 →
        (guardianOf env2 c2 folder2).CanView = (true, none) →
        env2.getUserLogin = env.getUserLogin →
        ∃ dto2, GetFolderById env2 c2 = some (Json 200 dto2) ∧
          (folder2.CreatedBy = folder.CreatedBy → dto2.CreatedBy = dto.CreatedBy) ∧
          (folder2.UpdatedBy = folder.UpdatedBy → dto2.UpdatedBy = dto.UpdatedBy)) := by
  refine ⟨_, GetFolderById_found_granted env c folder h hv, ?_, ?_, ?_, ?_, ?_⟩
  · intro hpos
    simp [hpos]
  · intro hle
    have : ¬ folder.CreatedBy > 0 := not_lt.mpr hle
    simp [this]
  · intro hpos
    simp [hpos]
  · intro hle
    have : ¬ folder.UpdatedBy > 0 := not_lt.mpr hle
    simp [this]
  · intro env2 c2 folder2 h2 hv2 hlogin
    refine ⟨_, GetFolderById_found_granted env2 c2 folder2 h2 hv2, ?_, ?_⟩
    · intro hid
      simp only [hid, hlogin]
    · intro hid
      simp only [hid, hlogin]

/-- Instances of amended C7: creator 5 is labelled `carol` and updater 0 is
labelled "Anonymous"; with creator 0 and updater 5 the labels are swapped. -/
theorem C7_creator_updater_labels_witness :
    (∃ dto, GetFolderById
        (stubEnv (.ok (sampleRecord true 5 0)) (plainGuardian true false false false) sampleLogin)
        (testContext .ROLE_VIEWER) = some (Json 200 dto) ∧
      dto.CreatedBy = "carol" ∧ dto.UpdatedBy = "Anonymous") ∧
    (∃ dto, GetFolderById
        (stubEnv (.ok (sampleRecord true 0 5)) (plainGuardian true false false false) sampleLogin)
        (testContext .ROLE_VIEWER) = some (Json 200 dto) ∧
      dto.CreatedBy = "Anonymous" ∧ dto.UpdatedBy = "carol") := by
  constructor
  · obtain ⟨dto, hget, hc, _, _, hu, _⟩ := C7_creator_updater_labels
      (stubEnv (.ok (sampleRecord true 5 0)) (plainGuardian true false false false) sampleLogin)
      (testContext .ROLE_VIEWER) (sampleRecord true 5 0) ⟨rfl, rfl⟩ rfl
    exact ⟨dto, hget, hc (by decide), hu (by decide)⟩
  · obtain ⟨dto, hget, _, hc, hu, _, _⟩ := C7_creator_updater_labels
      (stubEnv (.ok (sampleRecord true 0 5)) (plainGuardian true false false false) sampleLogin)
      (testContext .ROLE_VIEWER) (sampleRecord true 0 5) ⟨rfl, rfl⟩ rfl
    exact ⟨dto, hget, hc (by decide), hu (by decide)⟩

/-- C8 (the hard gate reveals nothing). For any two runs on found folders,
with arbitrary folder fields, `CanEdit`/`CanSave`/`CanAdmin` results and login
resolvers: if `CanView` returns `(false, nil)` in both, both return the same
403 response; if `CanView` returns the same non-nil error in both (with any
booleans), both return the same 500 response. -/
theorem C8_getFolderById_denial_independent (env1 env2 : Env) (c1 c2 : Context)
    (folder1 folder2 : Dashboard) (h1 : Found env1 c1 folder1) (h2 : Found env2 c2 folder2) :
    ((guardianOf env1 c1 folder1).CanView = (false, none) →
      (guardianOf env2 c2 folder2).CanView = (false, none) →
      GetFolderById env1 c1 = GetFolderById env2 c2 ∧
      GetFolderById env1 c1 = some (ApiError 403 "Access denied to this folder" none)) ∧
    (∀ b1 b2 err, (guardianOf env1 c1 folder1).CanView = (b1, some err) →
      (guardianOf env2 c2 folder2).CanView = (b2, some err) →
      GetFolderById env1 c1 = GetFolderById env2 c2 ∧
      GetFolderById env1 c1 =
        some (ApiError 500 "Error while checking folder permissions" (some err))) := by
  constructor
  · intro hv1 hv2
    have e1 := GetFolderById_found_denied env1 c1 folder1 h1 (Or.inr (by simp [hv1]))
    have e2 := GetFolderById_found_denied env2 c2 folder2 h2 (Or.inr (by simp [hv2]))
    rw [hv1, folderGuardianResponse_none] at e1
    rw [hv2, folderGuardianResponse_none] at e2
    exact ⟨e1.trans e2.symm, e1⟩
  · intro b1 b2 err hv1 hv2
    have e1 := GetFolderById_found_denied env1 c1 folder1 h1 (Or.inl (by simp [hv1]))
    have e2 := GetFolderById_found_denied env2 c2 folder2 h2 (Or.inl (by simp [hv2]))
    rw [hv1, folderGuardianResponse_some] at e1
    rw [hv2, folderGuardianResponse_some] at e2
    exact ⟨e1.trans e2.symm, e1⟩

/-- Instances of C8: two different folders, principals, login resolvers and
capability results give the same 403 when view is refused, and the same 500
when the view check fails with the same error. -/
theorem C8_getFolderById_denial_independent_witness :
    (GetFolderById (testEnv true aclUser200) (testContext .ROLE_VIEWER) =
      GetFolderById
        (stubEnv (.ok (sampleRecord true 5 0)) (plainGuardian false true true true) sampleLogin)
        (testContext .ROLE_ADMIN)) ∧
    (GetFolderById
        (stubEnv (.ok (fakeFolder false))
          (failingGuardian (false, some aclLookupFailed) false storeUnavailable)
          (fun _ => "Anonymous"))
        (testContext .ROLE_VIEWER) =
      GetFolderById
        (stubEnv (.ok (sampleRecord true 5 0))
          (Guardian.mk (true, some aclLookupFailed) (true, none) (true, none) (true, none))
          sampleLogin)
        (testContext .ROLE_ADMIN)) :=
  ⟨((C8_getFolderById_denial_independent (testEnv true aclUser200)
        (stubEnv (.ok (sampleRecord true 5 0)) (plainGuardian false true true true) sampleLogin)
        (testContext .ROLE_VIEWER) (testContext .ROLE_ADMIN) (fakeFolder true)
        (sampleRecord true 5 0) ⟨rfl, rfl⟩ ⟨rfl, rfl⟩).1 rfl rfl).1,
   ((C8_getFolderById_denial_independent
        (stubEnv (.ok (fakeFolder false))
          (failingGuardian (false, some aclLookupFailed) false storeUnavailable)
          (fun _ => "Anonymous"))
        (stubEnv (.ok (sampleRecord true 5 0))
          (Guardian.mk (true, some aclLookupFailed) (true, none) (true, none) (true, none))
          sampleLogin)
        (testContext .ROLE_VIEWER) (testContext .ROLE_ADMIN) (fakeFolder false)
        (sampleRecord true 5 0) ⟨rfl, rfl⟩ ⟨rfl, rfl⟩).2 false true aclLookupFailed rfl rfl).1⟩

/-- C9 (the payload mirrors the stored record). On success `getFolderHelper`
returns exactly the record of the store with a nil response, and for every
successful view the payload fields `Id`, `Title`, `Slug`, `HasAcl`, `Created`,
`Updated` and `Version` equal the corresponding fields of that record. -/
theorem C9_getFolderById_payload_mirrors_record (env : Env) (c : Context) (folder : Dashboard)
    (h : Found env c folder) (hv : (guardianOf env c folder).CanView = (true, none)) :
    getFolderHelper env c.OrgId "" (c.ParamsInt64 ":id") = (some folder, none) ∧
    (∀ orgId slug id d, env.Dispatch { Slug := slug, Id := id, OrgId := orgId } = .ok d →
      d.IsFolder = true → getFolderHelper env orgId slug id = (some d, none)) ∧
    ∃ dto, GetFolderById env c = some (Json 200 dto) ∧
      dto.Id = folder.Id ∧ dto.Title = folder.Title ∧ dto.Slug = folder.Slug ∧
      dto.HasAcl = folder.HasAcl ∧ dto.Created = folder.Created ∧
      dto.Updated = folder.Updated ∧ dto.Version = folder.Version := by
  refine ⟨getFolderHelper_found env c folder h, ?_, _,
    GetFolderById_found_granted env c folder h hv, rfl, rfl, rfl, rfl, rfl, rfl, rfl⟩
  intro orgId slug id d hd hf
  rw [getFolderHelper_of_ok env orgId slug id d hd, if_pos hf]

/-- Instance of C9: the stored record 7, "Ops", "ops", version 3. -/
theorem C9_getFolderById_payload_mirrors_record_witness :
    ∃ dto, GetFolderById
        (stubEnv (.ok (sampleRecord true 5 0)) (plainGuardian true true true false) sampleLogin)
        (testContext .ROLE_EDITOR) = some (Json 200 dto) ∧
      dto.Id = 7 ∧ dto.Title = "Ops" ∧ dto.Slug = "ops" ∧ dto.HasAcl = true ∧
      dto.Created = ⟨100⟩ ∧ dto.Updated = ⟨250⟩ ∧ dto.Version = 3 :=
  (C9_getFolderById_payload_mirrors_record
    (stubEnv (.ok (sampleRecord true 5 0)) (plainGuardian true true true false) sampleLogin)
    (testContext .ROLE_EDITOR) (sampleRecord true 5 0) ⟨rfl, rfl⟩ rfl).2.2

/-- C10 (retrieval short-circuits before authorization). Whenever the store
lookup fails or returns a record that is not a folder, `GetFolderById` returns
the 404 response of `getFolderHelper`; any other run with the same store
outcome returns the same response, whatever its principal, its guardian
results and its login resolver are. -/
theorem C10_getFolderById_not_found_first (env1 env2 : Env) (c1 c2 : Context)
    (hsame : env2.Dispatch (folderQuery c2) = env1.Dispatch (folderQuery c1))
    (hfail : ∀ d, env1.Dispatch (folderQuery c1) = .ok d → d.IsFolder = false) :
    ∃ rsp, getFolderHelper env1 c1.OrgId "" (c1.ParamsInt64 ":id") = (none, some rsp) ∧
      rsp.status = 404 ∧ rsp.payload = none ∧
      GetFolderById env1 c1 = some rsp ∧ GetFolderById env2 c2 = some rsp := by
  have hfail2 : ∀ d, env2.Dispatch (folderQuery c2) = .ok d → d.IsFolder = false := by
    intro d hd
    exact hfail d (hsame ▸ hd)
  obtain ⟨r1, hh1, hg1, hs1, _, hp1⟩ := GetFolderById_not_found env1 c1 hfail
  obtain ⟨r2, hh2, hg2, _, _, _⟩ := GetFolderById_not_found env2 c2 hfail2
  have heq : r2 = r1 := by
    cases hd : env1.Dispatch (folderQuery c1) with
    | error e =>
      have a1 := getFolderHelper_of_error env1 c1.OrgId "" (c1.ParamsInt64 ":id") e hd
      have a2 := getFolderHelper_of_error env2 c2.OrgId "" (c2.ParamsInt64 ":id") e
        (hsame.trans hd)
      rw [hh1] at a1
      rw [hh2] at a2
      simp only [Prod.mk.injEq, Option.some.injEq, true_and] at a1 a2
      rw [a1, a2]
    | ok d =>
      have a1 := getFolderHelper_of_ok env1 c1.OrgId "" (c1.ParamsInt64 ":id") d hd
      have a2 := getFolderHelper_of_ok env2 c2.OrgId "" (c2.ParamsInt64 ":id") d
        (hsame.trans hd)
      have hnot : ¬ d.IsFolder = true := by simp [hfail d hd]
      rw [if_neg hnot, hh1] at a1
      rw [if_neg hnot, hh2] at a2
      simp only [Prod.mk.injEq, Option.some.injEq, true_and] at a1 a2
      rw [a1, a2]
  exact ⟨r1, hh1, hs1, hp1, hg1, heq ▸ hg2⟩

/-- Instances of C10: for a record of dashboard kind, a run whose guardian
would refuse view and a run whose guardian would fail both return the 404
response; likewise for a store miss against a guardian that would grant. -/
theorem C10_getFolderById_not_found_first_witness :
    (GetFolderById
        (stubEnv (.ok (sampleRecord false 5 0)) (plainGuardian false false false false)
          sampleLogin) (testContext .ROLE_VIEWER) =
      some (ApiError 404 "Folder not found" (some Error.ErrFolderNotFound)) ∧
     GetFolderById
        (stubEnv (.ok (sampleRecord false 5 0))
          (failingGuardian (false, some aclLookupFailed) false aclLookupFailed)
          (fun _ => "Anonymous")) (testContext .ROLE_ADMIN) =
      some (ApiError 404 "Folder not found" (some Error.ErrFolderNotFound))) ∧
    (GetFolderById
        (stubEnv (.error Error.ErrDashboardNotFound) (plainGuardian false false false false)
          sampleLogin) (testContext .ROLE_VIEWER) =
     GetFolderById
        (stubEnv (.error Error.ErrDashboardNotFound) (plainGuardian true true true true)
          (fun _ => "Anonymous")) (testContext .ROLE_ADMIN)) := by
  constructor
  · obtain ⟨rsp, hh, _, _, hg1, hg2⟩ := C10_getFolderById_not_found_first
      (stubEnv (.ok (sampleRecord false 5 0)) (plainGuardian false false false false) sampleLogin)
      (stubEnv (.ok (sampleRecord false 5 0))
        (failingGuardian (false, some aclLookupFailed) false aclLookupFailed)
        (fun _ => "Anonymous"))
      (testContext .ROLE_VIEWER) (testContext .ROLE_ADMIN) rfl
      (by intro d hd; injection hd with hd; subst hd; rfl)
    have hr : rsp = ApiError 404 "Folder not found" (some Error.ErrFolderNotFound) := by
      have : (none, some (ApiError 404 "Folder not found" (some Error.ErrFolderNotFound))) =
          ((none : Option Dashboard), some rsp) := hh
      simp only [Prod.mk.injEq, Option.some.injEq, true_and] at this
      exact this.symm
    rw [hg1, hg2, hr]
    exact ⟨rfl, rfl⟩
  · obtain ⟨rsp, _, _, _, hg1, hg2⟩ := C10_getFolderById_not_found_first
      (stubEnv (.error Error.ErrDashboardNotFound) (plainGuardian false false false false)
        sampleLogin)
      (stubEnv (.error Error.ErrDashboardNotFound) (plainGuardian true true true true)
        (fun _ => "Anonymous"))
      (testContext .ROLE_VIEWER) (testContext .ROLE_ADMIN) rfl
      (by intro d hd; cases hd)
    rw [hg1, hg2]

end Grafana
